import Mathlib

/-!
Verification of the session/auth layer of the shop_micro frontend.

The development shallowly embeds the authenticated API client
(`src/frontend/src/api/client.ts`), the session hook
(`src/hooks/useAuth.ts`), and the per-service direct request builders of
`CatalogPage.tsx`, `UsersPage.tsx` and `OrdersPage.tsx`.

Modelling conventions:
* `localStorage` is the `Storage` structure, one `Option String` per key
  used by this slice (`authToken`, `authUsername`, `authRole`).
* JSON values produced by the runtime's `JSON.parse` are the inductive
  `Json`; `JSON.parse` itself is an external runtime facility, so the
  client is parameterised over a parse function `p : String → Option Json`
  (`none` models a parse exception); theorems quantify over `p`, and
  concrete instances evaluate it on fixture strings.
* A `fetch` call either yields a response (status and body text) or
  rejects; rejection is `FetchOutcome.networkError`, which the client
  source does not catch, so it propagates as `Failure.network`, distinct
  from the thrown `ApiError` (`Failure.api`).
-/

namespace ShopMicro

/-- JSON values as produced by the runtime parser (numbers restricted to
integers, which covers every value this layer exchanges). -/
inductive Json where
  | null
  | bool (b : Bool)
  | num (n : Int)
  | str (s : String)
  | arr (elems : List Json)
  | obj (members : List (String × Json))

/-- The double-quote character. -/
def quoteChar : Char := Char.ofNat 34

/-- The backslash character. -/
def backslashChar : Char := Char.ofNat 92

/-- A one-character string holding a double quote. -/
def qm : String := String.singleton quoteChar

/-- A one-character string holding a backslash. -/
def bsl : String := String.singleton backslashChar

/-- JSON string escaping of a single character (quote, backslash and
newline, the only characters this layer can produce that need escaping). -/
def escChar (c : Char) : String :=
  if c = quoteChar then bsl ++ qm
  else if c = backslashChar then bsl ++ bsl
  else if c = Char.ofNat 10 then bsl ++ String.singleton 'n'
  else String.singleton c

/-- JSON string escaping, character by character. -/
def escapeString (s : String) : String :=
  s.foldl (fun acc c => acc ++ escChar c) ""

mutual
/-- Serialisation of a `Json` value, modelling the runtime's
`JSON.stringify` on the values this layer builds. -/
def Json.stringify : Json → String
  | .null => "null"
  | .bool b => if b then "true" else "false"
  | .num n => toString n
  | .str s => qm ++ escapeString s ++ qm
  | .arr es => "[" ++ stringifyArr es ++ "]"
  | .obj ms => "\x7b" ++ stringifyObj ms ++ "\x7d"

/-- Comma-separated serialisation of array elements. -/
def stringifyArr : List Json → String
  | [] => ""
  | [e] => Json.stringify e
  | e :: es => Json.stringify e ++ "," ++ stringifyArr es

/-- Comma-separated serialisation of object members. -/
def stringifyObj : List (String × Json) → String
  | [] => ""
  | [(k, v)] => qm ++ escapeString k ++ qm ++ ":" ++ Json.stringify v
  | (k, v) :: ms => qm ++ escapeString k ++ qm ++ ":" ++ Json.stringify v ++ "," ++ stringifyObj ms
end

/-- JavaScript truthiness of a JSON value: `null`, `false`, `0` and the
empty string are falsy; every other value (including any object or
array) is truthy. -/
def jsTruthy : Json → Bool
  | .null => false
  | .bool b => b
  | .num n => n != 0
  | .str s => s != ""
  | .arr _ => true
  | .obj _ => true

/-- JavaScript property access `j.k` on a parsed JSON value: defined (as
`some`) only when `j` is an object with member `k`; on every other value
the access yields `undefined`, modelled as `none`.  (The client only
dereferences `data` after a truthiness guard, so the `null` case is never
reached with a throw.) -/
def getField (j : Json) (k : String) : Option Json :=
  match j with
  | .obj ms => ms.lookup k
  | _ => none

/-- The member `k` of `j` when it exists and is truthy, else `none`:
the building block of the JavaScript chain `data.k || ...`. -/
def truthyField (j : Json) (k : String) : Option Json :=
  match getField j k with
  | some v => if jsTruthy v then some v else none
  | none => none

/-- JavaScript truthiness of `localStorage.getItem(...)`, a
string-or-null: `null` and the empty string are falsy. -/
def optTruthy : Option String → Bool
  | none => false
  | some s => s != ""

/-- The durable browser storage slots this slice reads and writes:
`authToken`, `authUsername` and `authRole`.  `none` models an absent
key, `some s` a stored string (possibly empty). -/
structure Storage where
  authToken : Option String
  authUsername : Option String
  authRole : Option String
deriving DecidableEq

/-- `getAuthToken` of `client.ts`: `localStorage.getItem("authToken")`. -/
def getAuthToken (s : Storage) : Option String :=
  s.authToken

/-- The record returned by the `useAuth` hook (`src/hooks/useAuth.ts`),
minus the `logout` closure, which is modelled by `logout` below. -/
structure AuthState where
  token : Option String
  username : Option String
  role : String
  isAuthenticated : Bool
deriving DecidableEq

/-- The `useAuth` hook: reads the three storage keys;
`role` falls back to `"user"` when the key is absent or empty
(JavaScript `getItem("authRole") || "user"`), and
`isAuthenticated` is `Boolean(token)`. -/
def useAuth (s : Storage) : AuthState :=
  { token := s.authToken
    username := s.authUsername
    role :=
      match s.authRole with
      | some r => if r = "" then "user" else r
      | none => "user"
    isAuthenticated := optTruthy s.authToken }

/-- The `logout` closure returned by `useAuth`: removes all three keys. -/
def logout (s : Storage) : Storage :=
  { s with authToken := none, authUsername := none, authRole := none }

/-- An HTTP response as the client observes it: the numeric status and
the full body text (`await resp.text()`). -/
structure HttpResponse where
  status : Nat
  body : String
deriving DecidableEq

/-- The outcome of a `fetch` call: either a response, or a rejection of
the fetch promise (DNS failure, connection refused, ...) carrying the
runtime's error message. -/
inductive FetchOutcome where
  | response (resp : HttpResponse)
  | networkError (msg : String)

/-- The `ApiError` class of `client.ts`.  `message` keeps the JavaScript
value passed to the constructor (the truthy `detail`/`message` member, or
the synthesised string). -/
structure ApiError where
  message : Json
  status : Nat
  data : Json

/-- What a call through the client can throw: the `ApiError` it
constructs for a non-2xx response, or the uncaught rejection of `fetch`
itself. -/
inductive Failure where
  | api (e : ApiError)
  | network (msg : String)

/-- The options `request` receives from `apiGet` / `apiPost`: the
method, any extra headers spread over the defaults, and the already
serialised body. -/
structure RequestOptions where
  method : String
  extraHeaders : List (String × String)
  body : Option String

/-- The request handed to `fetch`: full URL, method, final headers, body. -/
structure OutgoingRequest where
  url : String
  method : String
  headers : List (String × String)
  body : Option String

/-- JavaScript object assignment `headers[k] = v`: overwrite the entry
when the key exists, append it otherwise. -/
def setHeader (hs : List (String × String)) (k v : String) : List (String × String) :=
  if hs.any (fun kv => kv.fst = k) then
    hs.map (fun kv => if kv.fst = k then (k, v) else kv)
  else hs ++ [(k, v)]

/-- Header lookup by key. -/
def lookupHeader (hs : List (String × String)) (k : String) : Option String :=
  hs.lookup k

/-- Whether a header with the given key is present. -/
def hasHeader (hs : List (String × String)) (k : String) : Bool :=
  (lookupHeader hs k).isSome

/-- The header object `request` builds: `Content-Type: application/json`,
then the spread of `options.headers`, then — when the stored token is
truthy — the `Authorization: Bearer <token>` assignment. -/
def buildHeaders (extra : List (String × String)) (token : Option String) : List (String × String) :=
  let base := extra.foldl (fun acc kv => setHeader acc kv.fst kv.snd)
    [("Content-Type", "application/json")]
  match token with
  | some t => if t = "" then base else setHeader base ("Authorization") ("Bearer " ++ t)
  | none => base

/-- Whether `resp.ok` holds: status in the inclusive range 200–299. -/
def respOk (status : Nat) : Bool :=
  200 ≤ status && status < 300

/-- The body-decoding step of `request`: `data = text ? JSON.parse(text)
: null`, with the catch substituting `text || null` (here `text` is
known non-empty) on a parse exception. -/
def parseBody (p : String → Option Json) (text : String) : Json :=
  if text = "" then Json.null
  else
    match p text with
    | some j => j
    | none => Json.str text

/-- The message of the thrown `ApiError`:
`(data && (data.detail || data.message)) || "Request failed with status <code>"`. -/
def errorMessage (data : Json) (status : Nat) : Json :=
  let fallback := Json.str ("Request failed with status " ++ toString status)
  if jsTruthy data then
    match truthyField data ("detail") with
    | some v => v
    | none =>
      match truthyField data ("message") with
      | some v => v
      | none => fallback
  else fallback

/-- Everything observable about one call through `request`: the request
handed to `fetch`, the storage as the call leaves it, and the value
returned or thrown. -/
structure CallResult where
  sent : OutgoingRequest
  store : Storage
  result : Except Failure Json

/-- The `request` function of `client.ts`.  `p` models the runtime's
`JSON.parse`, `baseUrl` the configured `API_BASE_URL`, `s` the storage
at call time, and `outcome` what `fetch` does with the sent request. -/
def request (p : String → Option Json) (baseUrl : String) (s : Storage)
    (path : String) (opts : RequestOptions) (outcome : FetchOutcome) : CallResult :=
  let url := baseUrl ++ path
  let headers := buildHeaders opts.extraHeaders (getAuthToken s)
  let sent : OutgoingRequest :=
    { url := url, method := opts.method, headers := headers, body := opts.body }
  match outcome with
  | .networkError m => { sent := sent, store := s, result := Except.error (Failure.network m) }
  | .response resp =>
    let data := parseBody p resp.body
    if respOk resp.status then
      { sent := sent, store := s, result := Except.ok data }
    else
      let s2 :=
        if resp.status = 401 then
          { s with authToken := none, authUsername := none }
        else s
      { sent := sent, store := s2
        result := Except.error (Failure.api
          { message := errorMessage data resp.status, status := resp.status, data := data }) }

/-- `apiPost`'s body preparation: `body ? JSON.stringify(body) : undefined`. -/
def encodeBody (b : Option Json) : Option String :=
  match b with
  | some v => if jsTruthy v then some (Json.stringify v) else none
  | none => none

/-- `apiGet`: a `request` with method GET and no extra options. -/
def apiGet (p : String → Option Json) (baseUrl : String) (s : Storage)
    (path : String) (outcome : FetchOutcome) : CallResult :=
  request p baseUrl s path { method := "GET", extraHeaders := [], body := none } outcome

/-- `apiPost`: a `request` with method POST and the serialised body. -/
def apiPost (p : String → Option Json) (baseUrl : String) (s : Storage)
    (path : String) (b : Option Json) (outcome : FetchOutcome) : CallResult :=
  request p baseUrl s path { method := "POST", extraHeaders := [], body := encodeBody b } outcome

/-- The message of a thrown `ApiError`, when the result is one. -/
def failMessage : Except Failure Json → Option Json
  | Except.error (Failure.api e) => some e.message
  | _ => none

/-- The status of a thrown `ApiError`, when the result is one. -/
def failStatus : Except Failure Json → Option Nat
  | Except.error (Failure.api e) => some e.status
  | _ => none

/-- Whether the call failed (threw anything at all). -/
def isFailure : Except Failure Json → Bool
  | Except.error _ => true
  | Except.ok _ => false

/-- Whether the call failed with the `ApiError` shape (message, status,
data) — as opposed to an uncaught fetch rejection. -/
def isApiFailure : Except Failure Json → Bool
  | Except.error (Failure.api _) => true
  | _ => false

/-- The direct `fetch` issued by `CatalogPage.handleCreate`: POST to
`<CATALOG_BASE_URL>/products`, `Content-Type` only, JSON body of
`name`, `price`, `in_stock`.  It never reads the session storage. -/
def catalogCreateRequest (catalogBase name : String) (price : Int) (inStock : Bool) : OutgoingRequest :=
  { url := catalogBase ++ "/products"
    method := "POST"
    headers := [("Content-Type", "application/json")]
    body := some (Json.stringify (Json.obj
      [("name", Json.str name), ("price", Json.num price), ("in_stock", Json.bool inStock)])) }

/-- The direct `fetch` issued by `UsersPage.handleCreate`: POST to
`<USERS_BASE_URL>/users`, `Content-Type` only, JSON body of `username`
and `email` (`email || null`).  It never reads the session storage. -/
def usersCreateRequest (usersBase username email : String) : OutgoingRequest :=
  { url := usersBase ++ "/users"
    method := "POST"
    headers := [("Content-Type", "application/json")]
    body := some (Json.stringify (Json.obj
      [("username", Json.str username),
       ("email", if email = "" then Json.null else Json.str email)])) }

/-- The direct `fetch` issued by `OrdersPage.handleCreate`: POST to
`<ORDERS_BASE_URL>/orders`, `Content-Type` only, JSON body of `user_id`
and a single-item `items` array.  It never reads the session storage. -/
def ordersCreateRequest (ordersBase : String) (userId productId qty : Int) : OutgoingRequest :=
  { url := ordersBase ++ "/orders"
    method := "POST"
    headers := [("Content-Type", "application/json")]
    body := some (Json.stringify (Json.obj
      [("user_id", Json.num userId),
       ("items", Json.arr [Json.obj
         [("product_id", Json.num productId), ("quantity", Json.num qty)]])])) }

/-- A concrete stand-in for the runtime's `JSON.parse`, defined on the
fixture bodies the examples below exercise (it returns exactly what
`JSON.parse` returns on those strings, and `none` elsewhere). -/
def sampleParse : String → Option Json := fun s =>
  if s = "\x7b\x22detail\x22:\x22expired\x22\x7d" then
    some (Json.obj [("detail", Json.str "expired")])
  else if s = "\x7b\x22detail\x22:\x22\x22\x7d" then
    some (Json.obj [("detail", Json.str "")])
  else if s = "\x7b\x22id\x22:7,\x22username\x22:\x22bob\x22,\x22email\x22:null\x7d" then
    some (Json.obj [("id", Json.num 7), ("username", Json.str "bob"), ("email", Json.null)])
  else none

/-! ### Characterisation lemmas for `request` -/

/-- A fetch rejection propagates unchanged: the storage is untouched and
the result is the bare network failure, not an `ApiError`. -/
lemma request_networkError (p : String → Option Json) (baseUrl : String) (s : Storage)
    (path : String) (opts : RequestOptions) (m : String) :
    request p baseUrl s path opts (FetchOutcome.networkError m) =
      { sent := { url := baseUrl ++ path, method := opts.method
                  headers := buildHeaders opts.extraHeaders (getAuthToken s), body := opts.body }
        store := s
        result := Except.error (Failure.network m) } := rfl

/-- A 2xx response leaves the storage untouched and returns the decoded body. -/
lemma request_response_ok (p : String → Option Json) (baseUrl : String) (s : Storage)
    (path : String) (opts : RequestOptions) (resp : HttpResponse)
    (hok : respOk resp.status = true) :
    request p baseUrl s path opts (FetchOutcome.response resp) =
      { sent := { url := baseUrl ++ path, method := opts.method
                  headers := buildHeaders opts.extraHeaders (getAuthToken s), body := opts.body }
        store := s
        result := Except.ok (parseBody p resp.body) } := by
  simp [request, hok]

/-- A non-2xx, non-401 response leaves the storage untouched and throws
the `ApiError` built from the decoded body and the status. -/
lemma request_response_fail (p : String → Option Json) (baseUrl : String) (s : Storage)
    (path : String) (opts : RequestOptions) (resp : HttpResponse)
    (hfail : respOk resp.status = false) (hn : resp.status ≠ 401) :
    request p baseUrl s path opts (FetchOutcome.response resp) =
      { sent := { url := baseUrl ++ path, method := opts.method
                  headers := buildHeaders opts.extraHeaders (getAuthToken s), body := opts.body }
        store := s
        result := Except.error (Failure.api
          { message := errorMessage (parseBody p resp.body) resp.status
            status := resp.status, data := parseBody p resp.body }) } := by
  simp [request, hfail, hn]

/-- A 401 response removes the `authToken` and `authUsername` slots
(and only those) and throws the `ApiError` built from the decoded body. -/
lemma request_response_401 (p : String → Option Json) (baseUrl : String) (s : Storage)
    (path : String) (opts : RequestOptions) (resp : HttpResponse)
    (h401 : resp.status = 401) :
    request p baseUrl s path opts (FetchOutcome.response resp) =
      { sent := { url := baseUrl ++ path, method := opts.method
                  headers := buildHeaders opts.extraHeaders (getAuthToken s), body := opts.body }
        store := { s with authToken := none, authUsername := none }
        result := Except.error (Failure.api
          { message := errorMessage (parseBody p resp.body) 401
            status := 401, data := parseBody p resp.body }) } := by
  simp [request, respOk, h401]

/-! ### Lemmas about the header object and the error message -/

/-- With no stored token only the content type header is sent. -/
lemma buildHeaders_no_token :
    buildHeaders [] none = [("Content-Type", "application/json")] := rfl

/-- A stored empty token is falsy, so no `Authorization` assignment runs. -/
lemma buildHeaders_empty_token :
    buildHeaders [] (some "") = [("Content-Type", "application/json")] := rfl

/-- With a truthy stored token the `Authorization` header is appended. -/
lemma buildHeaders_token (t : String) (ht : t ≠ "") :
    buildHeaders [] (some t) =
      [("Content-Type", "application/json"), ("Authorization", "Bearer " ++ t)] := by
  simp [buildHeaders, setHeader, ht]

/-- When the decoded body is an object whose `detail` member is a
non-empty string, that string is the error message. -/
lemma errorMessage_detail (ms : List (String × Json)) (st : Nat) (X : String)
    (h : ms.lookup ("detail") = some (Json.str X)) (hX : X ≠ "") :
    errorMessage (Json.obj ms) st = Json.str X := by
  simp [errorMessage, truthyField, getField, jsTruthy, h, hX]

/-- When the decoded body has no `detail` and no `message` member (in
particular when it is not an object at all), the synthesised message is
used. -/
lemma errorMessage_absent (d : Json) (st : Nat)
    (hd : getField d ("detail") = none) (hm : getField d ("message") = none) :
    errorMessage d st = Json.str ("Request failed with status " ++ toString st) := by
  simp only [errorMessage, truthyField, hd, hm]
  cases jsTruthy d <;> simp

/-- The request handed to `fetch` is the same whatever the outcome: URL
from base and path, the caller's method and body, and the built headers. -/
lemma request_sent (p : String → Option Json) (baseUrl : String) (s : Storage)
    (path : String) (opts : RequestOptions) (o : FetchOutcome) :
    (request p baseUrl s path opts o).sent =
      { url := baseUrl ++ path, method := opts.method
        headers := buildHeaders opts.extraHeaders (getAuthToken s), body := opts.body } := by
  cases o with
  | networkError m => rfl
  | response resp =>
    simp only [request]
    split <;> rfl

/-! ### The claims -/

/-- C1: for every request made through `apiGet` or `apiPost` whose
response has HTTP status exactly 401, after the call the session read
(`useAuth`) returns no token, regardless of what token was stored
before; and when the 401 body decodes to the object
`\x7b"detail":"expired"\x7d`, the failure's message equals `"expired"`. -/
theorem C1_401_clears_token_and_reports_detail
    (p : String → Option Json) (baseUrl : String) (s : Storage) (path : String)
    (b : Option Json) (resp : HttpResponse) (h401 : resp.status = 401) :
    (useAuth (apiGet p baseUrl s path (FetchOutcome.response resp)).store).token = none ∧
    (useAuth (apiPost p baseUrl s path b (FetchOutcome.response resp)).store).token = none ∧
    (parseBody p resp.body = Json.obj [("detail", Json.str "expired")] →
      failMessage (apiGet p baseUrl s path (FetchOutcome.response resp)).result
        = some (Json.str "expired")) := by
  refine ⟨?_, ?_, ?_⟩
  · simp [apiGet, request_response_401 _ _ _ _ _ _ h401, useAuth]
  · simp [apiPost, request_response_401 _ _ _ _ _ _ h401, useAuth]
  · intro hbody
    simp only [apiGet, request_response_401 _ _ _ _ _ _ h401, failMessage, hbody]
    exact congrArg some (errorMessage_detail _ _ _ (by rfl) (by decide))

/-- Witness for C1: token `"abc123"` and username `"alice"` stored, a
GET receives a 401 with body `\x7b"detail":"expired"\x7d`; afterwards no
token is stored and the failure message is `"expired"`. -/
theorem C1_witness :
    ({ status := 401, body := "\x7b\x22detail\x22:\x22expired\x22\x7d" } : HttpResponse).status = 401 ∧
    parseBody sampleParse ("\x7b\x22detail\x22:\x22expired\x22\x7d")
      = Json.obj [("detail", Json.str "expired")] ∧
    (useAuth (apiGet sampleParse ("http://localhost:8000")
        { authToken := some "abc123", authUsername := some "alice", authRole := none }
        ("/protected")
        (FetchOutcome.response { status := 401, body := "\x7b\x22detail\x22:\x22expired\x22\x7d" })).store).token
      = none ∧
    failMessage (apiGet sampleParse ("http://localhost:8000")
        { authToken := some "abc123", authUsername := some "alice", authRole := none }
        ("/protected")
        (FetchOutcome.response { status := 401, body := "\x7b\x22detail\x22:\x22expired\x22\x7d" })).result
      = some (Json.str "expired") :=
  ⟨rfl, rfl,
    (C1_401_clears_token_and_reports_detail sampleParse ("http://localhost:8000")
      { authToken := some "abc123", authUsername := some "alice", authRole := none }
      ("/protected") none
      { status := 401, body := "\x7b\x22detail\x22:\x22expired\x22\x7d" } rfl).1,
    (C1_401_clears_token_and_reports_detail sampleParse ("http://localhost:8000")
      { authToken := some "abc123", authUsername := some "alice", authRole := none }
      ("/protected") none
      { status := 401, body := "\x7b\x22detail\x22:\x22expired\x22\x7d" } rfl).2.2 rfl⟩

/-- Counterexample to C2: a transport failure (the `fetch` promise
rejects) does surface as a failure, but not with the `ApiError` shape —
the client never catches the rejection, so the two failure kinds do not
share one shape. -/
theorem C2_counterexample :
    isFailure (apiGet sampleParse ("http://localhost:8000")
        { authToken := some "abc123", authUsername := some "alice", authRole := none }
        ("/health") (FetchOutcome.networkError ("TypeError: Failed to fetch"))).result = true ∧
    isApiFailure (apiGet sampleParse ("http://localhost:8000")
        { authToken := some "abc123", authUsername := some "alice", authRole := none }
        ("/health") (FetchOutcome.networkError ("TypeError: Failed to fetch"))).result = false :=
  ⟨rfl, rfl⟩

/-- C2 (amended): an HTTP-level failure (response obtained, non-2xx)
surfaces as an `ApiError` value carrying message, status and data, while
a transport failure propagates the fetch rejection unchanged, so the two
kinds do not share one failure shape. -/
theorem C2_amended_failure_shapes
    (p : String → Option Json) (baseUrl : String) (s : Storage) (path : String)
    (opts : RequestOptions) (m : String) (resp : HttpResponse) :
    (request p baseUrl s path opts (FetchOutcome.networkError m)).result
      = Except.error (Failure.network m) ∧
    (respOk resp.status = false →
      (request p baseUrl s path opts (FetchOutcome.response resp)).result
        = Except.error (Failure.api
            { message := errorMessage (parseBody p resp.body) resp.status
              status := resp.status, data := parseBody p resp.body })) := by
  constructor
  · rw [request_networkError]
  · intro hfail
    by_cases h4 : resp.status = 401
    · rw [request_response_401 _ _ _ _ _ _ h4, h4]
    · rw [request_response_fail _ _ _ _ _ _ hfail h4]

/-- Witness for C2 (amended): a 503 with empty body throws the
`ApiError` shape with the synthesised message, while a rejected fetch
propagates as a bare network failure. -/
theorem C2_amended_witness :
    respOk 503 = false ∧
    (request sampleParse ("http://localhost:8000")
        { authToken := none, authUsername := none, authRole := none } ("/health")
        { method := "GET", extraHeaders := [], body := none }
        (FetchOutcome.networkError ("TypeError: Failed to fetch"))).result
      = Except.error (Failure.network ("TypeError: Failed to fetch")) ∧
    (request sampleParse ("http://localhost:8000")
        { authToken := none, authUsername := none, authRole := none } ("/health")
        { method := "GET", extraHeaders := [], body := none }
        (FetchOutcome.response { status := 503, body := "" })).result
      = Except.error (Failure.api
          { message := Json.str ("Request failed with status 503")
            status := 503, data := Json.null }) :=
  ⟨rfl,
    (C2_amended_failure_shapes sampleParse ("http://localhost:8000")
      { authToken := none, authUsername := none, authRole := none } ("/health")
      { method := "GET", extraHeaders := [], body := none }
      ("TypeError: Failed to fetch") { status := 503, body := "" }).1,
    (C2_amended_failure_shapes sampleParse ("http://localhost:8000")
      { authToken := none, authUsername := none, authRole := none } ("/health")
      { method := "GET", extraHeaders := [], body := none }
      ("TypeError: Failed to fetch") { status := 503, body := "" }).2 rfl⟩

/-- Counterexample to C3: a 401 with the role slot set leaves the role
slot set — the client removes only `authToken` and `authUsername`, it
does not invoke the full `clear()`/`logout`, so one of the three durable
session slots still holds a value after the call. -/
theorem C3_counterexample :
    (apiGet sampleParse ("http://localhost:8000")
        { authToken := some "abc123", authUsername := some "alice", authRole := some "admin" }
        ("/items") (FetchOutcome.response { status := 401, body := "" })).store.authRole
      = some "admin" ∧
    ¬ ((apiGet sampleParse ("http://localhost:8000")
        { authToken := some "abc123", authUsername := some "alice", authRole := some "admin" }
        ("/items") (FetchOutcome.response { status := 401, body := "" })).store.authRole
      = none) := by
  decide

/-- C3 (amended): for every request through the client whose response
status is exactly 401, the token and username slots are removed directly
(the equivalent of `clear()` restricted to those two keys), while the
role slot keeps its prior value. -/
theorem C3_amended_401_clears_token_and_username_only
    (p : String → Option Json) (baseUrl : String) (s : Storage) (path : String)
    (b : Option Json) (resp : HttpResponse) (h401 : resp.status = 401) :
    (apiGet p baseUrl s path (FetchOutcome.response resp)).store
      = { authToken := none, authUsername := none, authRole := s.authRole } ∧
    (apiPost p baseUrl s path b (FetchOutcome.response resp)).store
      = { authToken := none, authUsername := none, authRole := s.authRole } := by
  constructor <;> simp [apiGet, apiPost, request_response_401 _ _ _ _ _ _ h401]

/-- Witness for C3 (amended): with token, username and role all stored,
a 401 removes token and username and leaves role `"admin"` in place. -/
theorem C3_amended_witness :
    ({ status := 401, body := "" } : HttpResponse).status = 401 ∧
    (apiGet sampleParse ("http://localhost:8000")
        { authToken := some "abc123", authUsername := some "alice", authRole := some "admin" }
        ("/items") (FetchOutcome.response { status := 401, body := "" })).store
      = { authToken := none, authUsername := none, authRole := some "admin" } :=
  ⟨rfl,
    (C3_amended_401_clears_token_and_username_only sampleParse ("http://localhost:8000")
      { authToken := some "abc123", authUsername := some "alice", authRole := some "admin" }
      ("/items") none { status := 401, body := "" } rfl).1⟩

/-- C4: for every request issued through the client while the store
holds a token `t` (a token is present exactly when it is non-empty —
JavaScript truthiness, the sole authentication signal), the outgoing
request carries an `Authorization` header equal to `"Bearer " ++ t`;
while no token is present, no `Authorization` header is attached. -/
theorem C4_bearer_header
    (p : String → Option Json) (baseUrl : String) (s : Storage) (path : String)
    (b : Option Json) (o : FetchOutcome) (t : String) :
    (s.authToken = some t → t ≠ "" →
      lookupHeader (apiGet p baseUrl s path o).sent.headers ("Authorization")
        = some ("Bearer " ++ t) ∧
      lookupHeader (apiPost p baseUrl s path b o).sent.headers ("Authorization")
        = some ("Bearer " ++ t)) ∧
    (s.authToken = none →
      hasHeader (apiGet p baseUrl s path o).sent.headers ("Authorization") = false ∧
      hasHeader (apiPost p baseUrl s path b o).sent.headers ("Authorization") = false) := by
  constructor
  · intro hs ht
    constructor <;>
      simp [apiGet, apiPost, request_sent, getAuthToken, hs, buildHeaders_token t ht,
        lookupHeader, List.lookup]
  · intro hs
    constructor <;>
      simp [apiGet, apiPost, request_sent, getAuthToken, hs, buildHeaders_no_token,
        hasHeader, lookupHeader, List.lookup]

/-- Witness for C4: with token `"abc123"` stored the header
`Authorization: Bearer abc123` is attached; with no token stored no
`Authorization` header is attached. -/
theorem C4_witness :
    (({ authToken := some "abc123", authUsername := some "alice", authRole := none } : Storage).authToken
      = some "abc123") ∧
    ("abc123" : String) ≠ "" ∧
    lookupHeader (apiGet sampleParse ("http://localhost:8000")
        { authToken := some "abc123", authUsername := some "alice", authRole := none }
        ("/items") (FetchOutcome.networkError ("down"))).sent.headers ("Authorization")
      = some ("Bearer abc123") ∧
    (({ authToken := none, authUsername := none, authRole := none } : Storage).authToken = none) ∧
    hasHeader (apiGet sampleParse ("http://localhost:8000")
        { authToken := none, authUsername := none, authRole := none }
        ("/items") (FetchOutcome.networkError ("down"))).sent.headers ("Authorization")
      = false :=
  ⟨rfl, by decide,
    ((C4_bearer_header sampleParse ("http://localhost:8000")
      { authToken := some "abc123", authUsername := some "alice", authRole := none }
      ("/items") none (FetchOutcome.networkError ("down")) "abc123").1 rfl (by decide)).1,
    rfl,
    ((C4_bearer_header sampleParse ("http://localhost:8000")
      { authToken := none, authUsername := none, authRole := none }
      ("/items") none (FetchOutcome.networkError ("down")) "abc123").2 rfl).1⟩

/-- Counterexample to C5: a non-2xx body whose `detail` is the empty
string is an object with a string `detail` field, yet the failure
message is the synthesised text, not that string — the claim fails at
`X = ""` because JavaScript `data.detail || ...` treats `""` as absent. -/
theorem C5_counterexample :
    getField (parseBody sampleParse ("\x7b\x22detail\x22:\x22\x22\x7d")) ("detail")
      = some (Json.str "") ∧
    failMessage (apiGet sampleParse ("http://localhost:8000")
        { authToken := none, authUsername := none, authRole := none } ("/items")
        (FetchOutcome.response { status := 404, body := "\x7b\x22detail\x22:\x22\x22\x7d" })).result
      = some (Json.str ("Request failed with status 404")) ∧
    some (Json.str ("Request failed with status 404")) ≠ some (Json.str "") := by
  refine ⟨rfl, rfl, ?_⟩
  intro h
  injection h with h1
  injection h1 with h2
  exact absurd h2 (by decide)

/-- C5 (amended): for every non-2xx response, if the decoded body's
`detail` field is a non-empty string `X` the failure message equals `X`
(an empty `detail` falls through to the synthesised text); and if the
decoded body has neither a `detail` nor a `message` field the failure
message equals `"Request failed with status <code>"` with the literal
numeric status. -/
theorem C5_amended_error_message
    (p : String → Option Json) (baseUrl : String) (s : Storage) (path : String)
    (opts : RequestOptions) (resp : HttpResponse) (X : String)
    (hfail : respOk resp.status = false) :
    (getField (parseBody p resp.body) ("detail") = some (Json.str X) → X ≠ "" →
      failMessage (request p baseUrl s path opts (FetchOutcome.response resp)).result
        = some (Json.str X)) ∧
    (getField (parseBody p resp.body) ("detail") = none →
      getField (parseBody p resp.body) ("message") = none →
      failMessage (request p baseUrl s path opts (FetchOutcome.response resp)).result
        = some (Json.str ("Request failed with status " ++ toString resp.status))) := by
  have key : failMessage (request p baseUrl s path opts (FetchOutcome.response resp)).result
      = some (errorMessage (parseBody p resp.body) resp.status) := by
    by_cases h4 : resp.status = 401
    · rw [request_response_401 _ _ _ _ _ _ h4, h4]; rfl
    · rw [request_response_fail _ _ _ _ _ _ hfail h4]; rfl
  constructor
  · intro hd hX
    rw [key]
    cases hpb : parseBody p resp.body <;> rw [hpb] at hd <;>
      first
        | exact congrArg some (errorMessage_detail _ _ _ (by simpa [getField] using hd) hX)
        | simp [getField] at hd
  · intro hd hm
    rw [key]
    exact congrArg some (errorMessage_absent _ _ hd hm)

/-- Witness for C5 (amended): a 404 whose body decodes to
`\x7b"detail":"expired"\x7d` reports `"expired"`, and a 500 with empty
body (no `detail`, no `message`) reports the synthesised text. -/
theorem C5_amended_witness :
    respOk 404 = false ∧
    getField (parseBody sampleParse ("\x7b\x22detail\x22:\x22expired\x22\x7d")) ("detail")
      = some (Json.str "expired") ∧
    ("expired" : String) ≠ "" ∧
    failMessage (request sampleParse ("http://localhost:8000")
        { authToken := none, authUsername := none, authRole := none } ("/items")
        { method := "GET", extraHeaders := [], body := none }
        (FetchOutcome.response { status := 404, body := "\x7b\x22detail\x22:\x22expired\x22\x7d" })).result
      = some (Json.str "expired") ∧
    failMessage (request sampleParse ("http://localhost:8000")
        { authToken := none, authUsername := none, authRole := none } ("/items")
        { method := "GET", extraHeaders := [], body := none }
        (FetchOutcome.response { status := 500, body := "" })).result
      = some (Json.str ("Request failed with status 500")) :=
  ⟨rfl, rfl, by decide,
    (C5_amended_error_message sampleParse ("http://localhost:8000")
      { authToken := none, authUsername := none, authRole := none } ("/items")
      { method := "GET", extraHeaders := [], body := none }
      { status := 404, body := "\x7b\x22detail\x22:\x22expired\x22\x7d" } "expired" rfl).1
      rfl (by decide),
    (C5_amended_error_message sampleParse ("http://localhost:8000")
      { authToken := none, authUsername := none, authRole := none } ("/items")
      { method := "GET", extraHeaders := [], body := none }
      { status := 500, body := "" } "expired" rfl).2 rfl rfl⟩

/-- C6: for every 2xx response received through the client, the success
value is exactly what the runtime parser returns on the body text (no
reshaping), and an empty body yields `null`. -/
theorem C6_2xx_returns_parsed_body
    (p : String → Option Json) (baseUrl : String) (s : Storage) (path : String)
    (opts : RequestOptions) (resp : HttpResponse) (j : Json)
    (hok : respOk resp.status = true) :
    (resp.body ≠ "" → p resp.body = some j →
      (request p baseUrl s path opts (FetchOutcome.response resp)).result = Except.ok j) ∧
    (resp.body = "" →
      (request p baseUrl s path opts (FetchOutcome.response resp)).result
        = Except.ok Json.null) := by
  constructor
  · intro hne hp
    rw [request_response_ok _ _ _ _ _ _ hok]
    simp [parseBody, hne, hp]
  · intro he
    rw [request_response_ok _ _ _ _ _ _ hok]
    simp [parseBody, he]

/-- Witness for C6: a 201 whose body decodes to
`\x7b"id":7,"username":"bob","email":null\x7d` returns exactly that
object, and a 200 with empty body returns `null`. -/
theorem C6_witness :
    respOk 201 = true ∧
    ("\x7b\x22id\x22:7,\x22username\x22:\x22bob\x22,\x22email\x22:null\x7d" : String) ≠ "" ∧
    sampleParse ("\x7b\x22id\x22:7,\x22username\x22:\x22bob\x22,\x22email\x22:null\x7d")
      = some (Json.obj [("id", Json.num 7), ("username", Json.str "bob"), ("email", Json.null)]) ∧
    (request sampleParse ("http://localhost:8000")
        { authToken := some "abc123", authUsername := some "alice", authRole := none } ("/users")
        { method := "POST", extraHeaders := [], body := encodeBody (some (Json.obj
            [("username", Json.str "bob"), ("email", Json.null)])) }
        (FetchOutcome.response
          { status := 201,
            body := "\x7b\x22id\x22:7,\x22username\x22:\x22bob\x22,\x22email\x22:null\x7d" })).result
      = Except.ok (Json.obj [("id", Json.num 7), ("username", Json.str "bob"), ("email", Json.null)]) ∧
    (request sampleParse ("http://localhost:8000")
        { authToken := some "abc123", authUsername := some "alice", authRole := none } ("/users")
        { method := "GET", extraHeaders := [], body := none }
        (FetchOutcome.response { status := 200, body := "" })).result
      = Except.ok Json.null :=
  ⟨rfl, by decide, rfl,
    (C6_2xx_returns_parsed_body sampleParse ("http://localhost:8000")
      { authToken := some "abc123", authUsername := some "alice", authRole := none } ("/users")
      { method := "POST", extraHeaders := [], body := encodeBody (some (Json.obj
          [("username", Json.str "bob"), ("email", Json.null)])) }
      { status := 201,
        body := "\x7b\x22id\x22:7,\x22username\x22:\x22bob\x22,\x22email\x22:null\x7d" }
      (Json.obj [("id", Json.num 7), ("username", Json.str "bob"), ("email", Json.null)])
      rfl).1 (by decide) rfl,
    (C6_2xx_returns_parsed_body sampleParse ("http://localhost:8000")
      { authToken := some "abc123", authUsername := some "alice", authRole := none } ("/users")
      { method := "GET", extraHeaders := [], body := none }
      { status := 200, body := "" } Json.null rfl).2 rfl⟩

/-- C7: the per-service direct callers (the catalog, users and orders
creation fetches, which bypass the shared client) never attach an
`Authorization` header — none of the three builders reads the Session
Store at all, so this holds whatever token is stored; the Bearer
credential is attached only inside the shared client's `request`. -/
theorem C7_direct_callers_no_auth_header
    (catalogBase usersBase ordersBase name username email : String)
    (price userId productId qty : Int) (inStock : Bool) :
    hasHeader (catalogCreateRequest catalogBase name price inStock).headers ("Authorization")
      = false ∧
    hasHeader (usersCreateRequest usersBase username email).headers ("Authorization")
      = false ∧
    hasHeader (ordersCreateRequest ordersBase userId productId qty).headers ("Authorization")
      = false :=
  ⟨rfl, rfl, rfl⟩

/-- C8: for every response with a non-2xx status other than 401, the
three durable session slots are exactly as before the call, and the
failure carries the response's status. -/
theorem C8_non401_failure_preserves_session
    (p : String → Option Json) (baseUrl : String) (s : Storage) (path : String)
    (opts : RequestOptions) (resp : HttpResponse)
    (hfail : respOk resp.status = false) (hn : resp.status ≠ 401) :
    (request p baseUrl s path opts (FetchOutcome.response resp)).store = s ∧
    failStatus (request p baseUrl s path opts (FetchOutcome.response resp)).result
      = some resp.status := by
  rw [request_response_fail _ _ _ _ _ _ hfail hn]
  exact ⟨rfl, rfl⟩

/-- Witness for C8: a 404 leaves token, username and role exactly as
stored and surfaces status 404. -/
theorem C8_witness :
    respOk 404 = false ∧
    (404 : Nat) ≠ 401 ∧
    (request sampleParse ("http://localhost:8000")
        { authToken := some "abc123", authUsername := some "alice", authRole := some "admin" }
        ("/items") { method := "GET", extraHeaders := [], body := none }
        (FetchOutcome.response { status := 404, body := "" })).store
      = { authToken := some "abc123", authUsername := some "alice", authRole := some "admin" } ∧
    failStatus (request sampleParse ("http://localhost:8000")
        { authToken := some "abc123", authUsername := some "alice", authRole := some "admin" }
        ("/items") { method := "GET", extraHeaders := [], body := none }
        (FetchOutcome.response { status := 404, body := "" })).result = some 404 :=
  ⟨rfl, by decide,
    (C8_non401_failure_preserves_session sampleParse ("http://localhost:8000")
      { authToken := some "abc123", authUsername := some "alice", authRole := some "admin" }
      ("/items") { method := "GET", extraHeaders := [], body := none }
      { status := 404, body := "" } rfl (by decide)).1,
    (C8_non401_failure_preserves_session sampleParse ("http://localhost:8000")
      { authToken := some "abc123", authUsername := some "alice", authRole := some "admin" }
      ("/items") { method := "GET", extraHeaders := [], body := none }
      { status := 404, body := "" } rfl (by decide)).2⟩

/-- C9: from any starting session state, running the `logout` closure
twice leaves the session identical to running it once — no token, no
username, and the role read resolves to the default `"user"`. -/
theorem C9_logout_idempotent (s : Storage) :
    logout (logout s) = logout s ∧
    (useAuth (logout s)).token = none ∧
    (useAuth (logout s)).username = none ∧
    (useAuth (logout s)).role = "user" :=
  ⟨rfl, rfl, rfl, rfl⟩

/-- C10: for every storage state, the Auth Gate and the API Client agree
on authentication — `useAuth`'s `isAuthenticated` holds exactly when a
request issued in the same state carries an `Authorization` header; in
particular a stored empty-string token is unauthenticated for both. -/
theorem C10_gate_and_client_agree
    (p : String → Option Json) (baseUrl : String) (s : Storage) (path : String)
    (o : FetchOutcome) :
    ((useAuth s).isAuthenticated = true ↔
      hasHeader (apiGet p baseUrl s path o).sent.headers ("Authorization") = true) ∧
    (s.authToken = some "" →
      (useAuth s).isAuthenticated = false ∧
      hasHeader (apiGet p baseUrl s path o).sent.headers ("Authorization") = false) := by
  have hh : (apiGet p baseUrl s path o).sent.headers = buildHeaders [] s.authToken := by
    simp [apiGet, request_sent, getAuthToken]
  constructor
  · rw [hh]
    cases hs : s.authToken with
    | none =>
      simp [useAuth, optTruthy, hs, buildHeaders_no_token, hasHeader, lookupHeader, List.lookup]
    | some t =>
      by_cases ht : t = ""
      · subst ht
        simp [useAuth, optTruthy, hs, buildHeaders_empty_token, hasHeader, lookupHeader,
          List.lookup]
      · simp [useAuth, optTruthy, hs, buildHeaders_token t ht, hasHeader, lookupHeader,
          List.lookup, ht]
  · intro hs
    rw [hh, hs]
    simp [useAuth, optTruthy, hs, buildHeaders_empty_token, hasHeader, lookupHeader, List.lookup]

/-- Witness for C10: with the empty string stored as token, the gate
evaluates unauthenticated and the issued request has no `Authorization`
header. -/
theorem C10_witness :
    (({ authToken := some "", authUsername := some "alice", authRole := none } : Storage).authToken
      = some "") ∧
    (useAuth { authToken := some "", authUsername := some "alice", authRole := none }).isAuthenticated
      = false ∧
    hasHeader (apiGet sampleParse ("http://localhost:8000")
        { authToken := some "", authUsername := some "alice", authRole := none }
        ("/items") (FetchOutcome.networkError ("down"))).sent.headers ("Authorization")
      = false :=
  ⟨rfl,
    ((C10_gate_and_client_agree sampleParse ("http://localhost:8000")
      { authToken := some "", authUsername := some "alice", authRole := none }
      ("/items") (FetchOutcome.networkError ("down"))).2 rfl).1,
    ((C10_gate_and_client_agree sampleParse ("http://localhost:8000")
      { authToken := some "", authUsername := some "alice", authRole := none }
      ("/items") (FetchOutcome.networkError ("down"))).2 rfl).2⟩

end ShopMicro
